import Mathlib

/-!
Verification of the data model (`models.py`) and the API client wrapper
(`gemini_service.py`) of the joke-generator repository.

Shallow embedding conventions:
* Python's `datetime.now()` is modelled as an abstract clock tick (`Nat`)
  supplied by the caller; the `strftime` rendering in `para_dict` is kept as
  the raw tick (no claim depends on the textual date format).
* The class-level counter `Interacao._contador` is threaded explicitly as a
  `Nat` state.
* JSON values are the inductive `Json`; Python subscript semantics
  (`d[key]`, `l[i]`) including the exception each raises (`KeyError`,
  `IndexError`, `TypeError`) are modelled by `getKey` / `getIdx`.
* `requests` transport outcomes (timeout, connection error, or a response
  with a status code and a body that may fail JSON decoding) are the input
  of `gerar_conteudo_response`, which embeds the whole
  `try`/`except` dispatch of `GeminiService.gerar_conteudo`.
* The spec's error taxonomy names the distinct `raise` sites of the source:
  each distinct user-visible message becomes one `ServiceError` constructor.
* Floats (`temperatura`, `topP`) are modelled as exact rationals; no claim
  depends on floating-point rounding.
-/

/-- One recorded user/AI interaction (`models.py`, class `Interacao`). -/
structure Interacao where
  id : Nat
  usuario_input : String
  ia_resposta : String
  timestamp : Nat
  categoria : String
deriving DecidableEq

/-- Python `x or y` specialised to `Optional[str]`: `None` and `""` are
falsy, any other string is truthy and returned unchanged. -/
def pyOrStr (x : Option String) (padrao : String) : String :=
  match x with
  | none => padrao
  | some s => if s = "" then padrao else s

/-- `Interacao.__init__`: increments the class counter `_contador`, takes the
new counter value as `id`, stamps the current time, and defaults the
category via `categoria or "geral"`.  Returns the new object and the new
counter state. -/
def Interacao.criar (contador : Nat) (usuario_input ia_resposta : String)
    (categoria : Option String) (agora : Nat) : Interacao × Nat :=
  let novo := contador + 1
  ({ id := novo
     usuario_input := usuario_input
     ia_resposta := ia_resposta
     timestamp := agora
     categoria := pyOrStr categoria "geral" }, novo)

/-- The read-only projection returned by `Interacao.para_dict` (id, input,
response, timestamp, category).  The `strftime` text rendering of the
timestamp is kept as the raw tick. -/
structure InteracaoDict where
  id : Nat
  usuario_input : String
  ia_resposta : String
  timestamp : Nat
  categoria : String
deriving DecidableEq

/-- `Interacao.para_dict`. -/
def Interacao.para_dict (i : Interacao) : InteracaoDict :=
  { id := i.id
    usuario_input := i.usuario_input
    ia_resposta := i.ia_resposta
    timestamp := i.timestamp
    categoria := i.categoria }

/-- Input data for creating one `Interacao` (constructor arguments plus the
clock tick `datetime.now()` would observe). -/
structure DadosInteracao where
  usuario_input : String
  ia_resposta : String
  categoria : Option String
  agora : Nat

/-- Creates a sequence of `Interacao` objects in order, threading the class
counter through, exactly as repeated `Interacao(...)` calls do in one
process. -/
def criarSequencia (contador : Nat) : List DadosInteracao → List Interacao × Nat
  | [] => ([], contador)
  | d :: rest =>
    let p := Interacao.criar contador d.usuario_input d.ia_resposta d.categoria d.agora
    let q := criarSequencia p.2 rest
    (p.1 :: q.1, q.2)

/-- The bounded history (`models.py`, class `HistoricoInteracoes`). -/
structure HistoricoInteracoes where
  interacoes : List Interacao
  limite : Nat
deriving DecidableEq

/-- `HistoricoInteracoes.__init__(limite)`. -/
def HistoricoInteracoes.novo (limite : Nat) : HistoricoInteracoes :=
  { interacoes := [], limite := limite }

/-- `HistoricoInteracoes.adicionar`: append, then `pop(0)` (drop the oldest
entry) if the length exceeds the limit. -/
def HistoricoInteracoes.adicionar (h : HistoricoInteracoes) (i : Interacao) :
    HistoricoInteracoes :=
  let l := h.interacoes ++ [i]
  { h with interacoes := if l.length > h.limite then l.tail else l }

/-- `HistoricoInteracoes.obter_todas`. -/
def HistoricoInteracoes.obter_todas (h : HistoricoInteracoes) : List InteracaoDict :=
  h.interacoes.map Interacao.para_dict

/-- `HistoricoInteracoes.obter_por_categoria`: the list comprehension
`[i.para_dict() for i in self.interacoes if i.categoria == categoria]`. -/
def HistoricoInteracoes.obter_por_categoria (h : HistoricoInteracoes)
    (categoria : String) : List InteracaoDict :=
  (h.interacoes.filter (fun i => i.categoria == categoria)).map Interacao.para_dict

/-- `HistoricoInteracoes.limpar`. -/
def HistoricoInteracoes.limpar (h : HistoricoInteracoes) : HistoricoInteracoes :=
  { h with interacoes := [] }

/-- `HistoricoInteracoes.total`. -/
def HistoricoInteracoes.total (h : HistoricoInteracoes) : Nat :=
  h.interacoes.length

/-- Folds a list of interactions into the history by repeated `adicionar`. -/
def HistoricoInteracoes.adicionarTodas (h : HistoricoInteracoes)
    (is : List Interacao) : HistoricoInteracoes :=
  is.foldl HistoricoInteracoes.adicionar h

/-- A sample interaction used by the concrete append-51 scenario: the object
`Interacao(...)` creates when the class counter currently reads `n`. -/
def exemploInteracao (n : Nat) : Interacao :=
  (Interacao.criar n "pergunta" "resposta" none n).1

/-- JSON values, as produced by `response.json()` and built for the request
payload.  Numbers are exact rationals (the source's floats `0.9`, `0.95`
appear only as opaque payload values in the claims). -/
inductive Json where
  | null
  | str (s : String)
  | num (q : Rat)
  | bool (b : Bool)
  | arr (xs : List Json)
  | obj (fields : List (String × Json))

/-- The Python exceptions the body of `gerar_conteudo` can raise before the
`except` clauses dispatch them. -/
inductive PyExc where
  | keyError
  | indexError
  | typeError
  | httpError (status : Nat)
  | jsonDecodeError
deriving DecidableEq

/-- Python `d[k]` for a string key: value when `d` is a dict holding `k`;
`KeyError` when the key is absent; `TypeError` when `d` is not a dict (list
and string subscripts must be integers; `None`, numbers and booleans are
not subscriptable). -/
def getKey (j : Json) (k : String) : Except PyExc Json :=
  match j with
  | .obj fs =>
    match fs.lookup k with
    | some v => .ok v
    | none => .error .keyError
  | _ => .error .typeError

/-- Python `x[i]` for a non-negative integer index: list element or
`IndexError`; one-character string or `IndexError` for strings; `KeyError`
for a dict (an integer is looked up as a key, and our dict keys are all
strings); `TypeError` otherwise. -/
def getIdx (j : Json) (i : Nat) : Except PyExc Json :=
  match j with
  | .arr xs =>
    match xs.get? i with
    | some v => .ok v
    | none => .error .indexError
  | .str s =>
    match s.toList.get? i with
    | some c => .ok (.str (String.mk [c]))
    | none => .error .indexError
  | .obj _ => .error .keyError
  | _ => .error .typeError

/-- The extraction line
`data["candidates"][0]["content"]["parts"][0]["text"]`. -/
def extractText (data : Json) : Except PyExc Json := do
  let cands ← getKey data "candidates"
  let cand0 ← getIdx cands 0
  let content ← getKey cand0 "content"
  let parts ← getKey content "parts"
  let part0 ← getIdx parts 0
  getKey part0 "text"

/-- `response.raise_for_status()`: raises `HTTPError` exactly for client
(4xx) and server (5xx) status codes. -/
def raise_for_status (status : Nat) : Except PyExc Unit :=
  if 400 ≤ status ∧ status < 600 then .error (.httpError status) else .ok ()

/-- An upstream HTTP response: status code and decoded JSON body (`none`
when `response.json()` fails to decode, raising `JSONDecodeError`). -/
structure HttpResponse where
  status : Nat
  body : Option Json

/-- Outcome of `requests.post`: timeout, connection error, or a response. -/
inductive TransportResult where
  | timeout
  | connError
  | response (r : HttpResponse)

/-- The spec's error taxonomy: one constructor per distinct `raise` site of
`gerar_conteudo` (each site produces a distinct user-visible message). -/
inductive ServiceError where
  | timeoutError
  | connectionError
  | rateLimitError
  | authError
  | upstreamError (status : Nat)
  | malformedResponseError
  | unexpectedError
deriving DecidableEq

/-- The `try`/`except` body of `GeminiService.gerar_conteudo` from the
`requests.post` call on: `raise_for_status`, then `response.json()`, then
the nested extraction; `Timeout` → timeout message, `ConnectionError` →
connection message, `HTTPError` → status dispatch (429, 401, other),
`KeyError` → malformed-response message, any other exception (including
`IndexError`, `TypeError` and `JSONDecodeError`) → the catch-all
"unexpected error" message.  An exception raised inside an `except` handler
is not caught by the later handlers of the same `try`. -/
def gerar_conteudo_response (t : TransportResult) : Except ServiceError Json :=
  match t with
  | .timeout => .error .timeoutError
  | .connError => .error .connectionError
  | .response r =>
    match raise_for_status r.status with
    | .error _ =>
      if r.status = 429 then .error .rateLimitError
      else if r.status = 401 then .error .authError
      else .error (.upstreamError r.status)
    | .ok _ =>
      match r.body with
      | none => .error .unexpectedError
      | some data =>
        match extractText data with
        | .ok v => .ok v
        | .error .keyError => .error .malformedResponseError
        | .error _ => .error .unexpectedError

/-- Python truthiness of `Optional[int]` (`if max_tokens:`): `None` and `0`
are falsy, every other integer is truthy. -/
def pyTruthyOptInt : Option Int → Bool
  | none => false
  | some n => n != 0

/-- The `generationConfig` dict of the payload built by `gerar_conteudo`:
temperature, `topK: 40`, `topP: 0.95`, then `maxOutputTokens` added only
under `if max_tokens:`. -/
def generationConfigList (temperatura : Rat) (max_tokens : Option Int) :
    List (String × Json) :=
  [("temperature", Json.num temperatura),
   ("topK", Json.num 40),
   ("topP", Json.num (95 / 100))] ++
  (if pyTruthyOptInt max_tokens then
    [("maxOutputTokens", Json.num (Rat.ofInt (max_tokens.getD 0)))]
  else [])

/-- The full request payload of `gerar_conteudo`. -/
def buildPayload (prompt : String) (temperatura : Rat) (max_tokens : Option Int) :
    Json :=
  Json.obj
    [("contents", Json.arr [Json.obj [("parts", Json.arr [Json.obj [("text", Json.str prompt)]])]]),
     ("generationConfig", Json.obj (generationConfigList temperatura max_tokens))]

/-- The service object after successful construction. -/
structure GeminiService where
  api_key : String
  base_url : String
  model : String
  timeout : Nat
deriving DecidableEq

/-- The placeholder credential value rejected by the constructor. -/
def placeholderApiKey : String := "sua_api_key_aqui"

/-- The `ValueError` message raised by the constructor. -/
def apiKeyErrorMsg : String :=
  "❌ API key do Gemini não configurada! Copie .env.example para .env e adicione sua API key."

/-- `GeminiService.__init__`: reads `GEMINI_API_KEY` from the environment
(`none` when unset), raises `ValueError` under
`if not self.api_key or self.api_key == "sua_api_key_aqui"` (so `None`, the
empty string, and the placeholder all fail), otherwise stores the
credential and the fixed base URL, model and timeout. -/
def mkGeminiService (env_key : Option String) : Except String GeminiService :=
  match env_key with
  | none => .error apiKeyErrorMsg
  | some k =>
    if k = "" ∨ k = placeholderApiKey then .error apiKeyErrorMsg
    else .ok
      { api_key := k
        base_url := "https://generativelanguage.googleapis.com/v1beta/models"
        model := "gemini-2.5-flash"
        timeout := 30 }

/-- The success body shape of the upstream API with first text part `t`,
possibly followed by further candidates `cs` and further parts `ps`. -/
def corpoSucesso (t : String) (cs ps : List Json) : Json :=
  Json.obj
    [("candidates",
      Json.arr
        (Json.obj
          [("content", Json.obj [("parts", Json.arr (Json.obj [("text", Json.str t)] :: ps))])]
          :: cs))]

/-- The concrete scenario: 51 interactions (class counter starting at 0)
appended to a fresh history with limit 50. -/
def cenario51 : HistoricoInteracoes :=
  (HistoricoInteracoes.novo 50).adicionarTodas ((List.range 51).map exemploInteracao)

/-! ## Helper lemmas -/

/-- One `adicionar` step preserves the sliding-window invariant: if the
stored list is the suffix of all appended-so-far entries that fits under
the limit, it still is after appending one more. -/
theorem adicionar_mantem_janela (h : HistoricoInteracoes) (l : List Interacao)
    (i : Interacao) (hint : h.interacoes = l.drop (l.length - h.limite)) :
    (h.adicionar i).interacoes = (l ++ [i]).drop (l.length + 1 - h.limite) := by
  have hlen : (l.drop (l.length - h.limite)).length = l.length - (l.length - h.limite) :=
    List.length_drop _ _
  show (if (h.interacoes ++ [i]).length > h.limite then (h.interacoes ++ [i]).tail
        else h.interacoes ++ [i]) = (l ++ [i]).drop (l.length + 1 - h.limite)
  rw [hint]
  by_cases hc : l.length < h.limite
  · have h0 : l.length - h.limite = 0 := by omega
    have h1 : l.length + 1 - h.limite = 0 := by omega
    have hng : ¬ ((l.drop (l.length - h.limite) ++ [i]).length > h.limite) := by
      simp only [List.length_append, hlen]; simp; omega
    rw [if_neg hng, h0, h1, List.drop_zero, List.drop_zero]
  · have hg : ((l.drop (l.length - h.limite) ++ [i]).length > h.limite) := by
      simp only [List.length_append, hlen]; simp; omega
    rw [if_pos hg]
    by_cases h0 : h.limite = 0
    · have hd : l.drop (l.length - h.limite) = [] := by
        rw [← List.length_eq_zero]; omega
      have hd2 : (l ++ [i]).drop (l.length + 1 - h.limite) = [] := by
        apply List.drop_eq_nil_of_le; simp; omega
      rw [hd, hd2]; rfl
    · have hone : 1 ≤ (l.drop (l.length - h.limite)).length := by omega
      calc (l.drop (l.length - h.limite) ++ [i]).tail
          = (l.drop (l.length - h.limite) ++ [i]).drop 1 := (List.drop_one _).symm
        _ = (l.drop (l.length - h.limite)).drop 1 ++ [i] :=
            List.drop_append_of_le_length hone
        _ = l.drop ((l.length - h.limite) + 1) ++ [i] := by
            rw [List.drop_drop]
        _ = (l ++ [i]).drop (l.length + 1 - h.limite) := by
            have he : l.length + 1 - h.limite = (l.length - h.limite) + 1 := by omega
            rw [he, (List.drop_append_of_le_length (by omega)).symm]

/-- The history built from empty by appending `is` holds exactly the suffix
of `is` that fits under the limit, and the limit is unchanged. -/
theorem adicionarTodas_janela (C : Nat) (is : List Interacao) :
    ((HistoricoInteracoes.novo C).adicionarTodas is).interacoes
      = is.drop (is.length - C) ∧
    ((HistoricoInteracoes.novo C).adicionarTodas is).limite = C := by
  induction is using List.reverseRecOn with
  | nil => simp [HistoricoInteracoes.adicionarTodas, HistoricoInteracoes.novo]
  | append_singleton l i ih =>
    have hsplit : (HistoricoInteracoes.novo C).adicionarTodas (l ++ [i])
        = ((HistoricoInteracoes.novo C).adicionarTodas l).adicionar i := by
      simp [HistoricoInteracoes.adicionarTodas, List.foldl_append]
    have hlim : (((HistoricoInteracoes.novo C).adicionarTodas l).adicionar i).limite
        = ((HistoricoInteracoes.novo C).adicionarTodas l).limite := rfl
    constructor
    · rw [hsplit]
      have hint : ((HistoricoInteracoes.novo C).adicionarTodas l).interacoes
          = l.drop (l.length - ((HistoricoInteracoes.novo C).adicionarTodas l).limite) := by
        rw [ih.2, ih.1]
      have := adicionar_mantem_janela _ l i hint
      rw [this, ih.2]
      simp
    · rw [hsplit, hlim, ih.2]

/-- The ids produced by a creation sequence starting at counter `st` are
exactly `st+1, st+2, ...`, and the final counter is `st + n`. -/
theorem criarSequencia_ids (st : Nat) (ds : List DadosInteracao) :
    ((criarSequencia st ds).1.map Interacao.id) = List.range' (st + 1) ds.length ∧
    (criarSequencia st ds).2 = st + ds.length := by
  induction ds generalizing st with
  | nil => simp [criarSequencia]
  | cons d rest ih =>
    have h1 := (ih (st + 1)).1
    have h2 := (ih (st + 1)).2
    constructor
    · simp only [criarSequencia, Interacao.criar, List.map_cons, h1, List.length_cons]
      rw [List.range'_succ]
    · simp only [criarSequencia, Interacao.criar, h2, List.length_cons]
      omega

/-- `Except` bind on a success reduces to the continuation. -/
theorem except_bind_ok {α β : Type} (x : α) (f : α → Except PyExc β) :
    (Except.ok x >>= f) = f x := rfl

/-- `Except` bind on an error propagates the error. -/
theorem except_bind_error {α β : Type} (e : PyExc) (f : α → Except PyExc β) :
    ((Except.error e : Except PyExc α) >>= f) = .error e := rfl

/-! ## Claim theorems -/

set_option maxRecDepth 100000 in
/-- Claim C1: for every sequence of N appends on a history with cap C the
length is min(N, C) and the contents are exactly the last min(N, C)
appended interactions oldest-first; concretely, after 51 appends with cap
50 the first interaction's projection is absent from `obter_todas`, the
51st is present, and `total` is 50. -/
theorem historico_fifo_limitado :
    (∀ (C : Nat) (is : List Interacao),
      ((HistoricoInteracoes.novo C).adicionarTodas is).total = min is.length C ∧
      ((HistoricoInteracoes.novo C).adicionarTodas is).interacoes
        = is.drop (is.length - C)) ∧
    (cenario51.total = 50 ∧
     (exemploInteracao 0).para_dict ∉ cenario51.obter_todas ∧
     (exemploInteracao 50).para_dict ∈ cenario51.obter_todas) := by
  constructor
  · intro C is
    have hw := adicionarTodas_janela C is
    refine ⟨?_, hw.1⟩
    unfold HistoricoInteracoes.total
    rw [hw.1, List.length_drop]
    omega
  · refine ⟨by decide, by decide, by decide⟩

/-- Claim C7: `obter_por_categoria c` is exactly the order-preserved
subsequence of `obter_todas` whose category equals `c`. -/
theorem filtro_categoria_subsequencia (h : HistoricoInteracoes) (c : String) :
    h.obter_por_categoria c
      = (h.obter_todas).filter (fun d => d.categoria == c) ∧
    (h.obter_por_categoria c).Sublist h.obter_todas := by
  have key : h.obter_por_categoria c
      = (h.obter_todas).filter (fun d => d.categoria == c) := by
    unfold HistoricoInteracoes.obter_por_categoria HistoricoInteracoes.obter_todas
    rw [List.filter_map]
    rfl
  exact ⟨key, key ▸ List.filter_sublist _⟩

/-- Claim C8: `limpar` empties the log: `total` returns 0 and `obter_todas`
returns the empty sequence, for any prior state. -/
theorem limpar_esvazia (h : HistoricoInteracoes) :
    (h.limpar).total = 0 ∧ (h.limpar).obter_todas = [] :=
  ⟨rfl, rfl⟩

/-- Claim C9: ids assigned by a creation sequence are strictly increasing in
creation order (so process-lifetime unique), independent of any history
operation; and history operations never produce altered interaction
objects: `adicionar` yields a sublist of the old entries plus the new one,
and `limpar` yields the empty list. -/
theorem interacao_ids_monotonicos :
    (∀ (st : Nat) (ds : List DadosInteracao),
      ((criarSequencia st ds).1.map Interacao.id).Pairwise (· < ·) ∧
      ((criarSequencia st ds).1.map Interacao.id).Nodup) ∧
    (∀ (h : HistoricoInteracoes) (i : Interacao),
      ((h.adicionar i).interacoes).Sublist (h.interacoes ++ [i]) ∧
      (h.limpar).interacoes = []) := by
  constructor
  · intro st ds
    have hmap := (criarSequencia_ids st ds).1
    rw [hmap]
    exact ⟨List.pairwise_lt_range' _ _, List.nodup_range' ..⟩
  · intro h i
    refine ⟨?_, rfl⟩
    show (if (h.interacoes ++ [i]).length > h.limite then (h.interacoes ++ [i]).tail
          else h.interacoes ++ [i]).Sublist (h.interacoes ++ [i])
    split
    · exact List.tail_sublist _
    · exact List.Sublist.refl _

/-- Claim C10: constructing an interaction with the empty string as category
yields the default "geral", identical to passing no category, and no
interaction ever stores the empty string as its category. -/
theorem categoria_vazia_vira_geral :
    (∀ (contador : Nat) (ui ir : String) (agora : Nat),
      (Interacao.criar contador ui ir (some "") agora).1
        = (Interacao.criar contador ui ir none agora).1 ∧
      (Interacao.criar contador ui ir (some "") agora).1.categoria = "geral") ∧
    (∀ (contador : Nat) (ui ir : String) (cat : Option String) (agora : Nat),
      (Interacao.criar contador ui ir cat agora).1.categoria ≠ "") := by
  constructor
  · intro contador ui ir agora
    exact ⟨rfl, rfl⟩
  · intro contador ui ir cat agora
    cases cat with
    | none => simp [Interacao.criar, pyOrStr]
    | some s =>
      show (if s = "" then "geral" else s) ≠ ""
      split
      · decide
      · assumption

/-- Claim C2: for every 2xx response whose body has the expected shape with
first text part `t`, `gerar_conteudo` returns exactly `t`; concretely the
stubbed body with text "Cats rule." yields exactly "Cats rule.". -/
theorem gerar_conteudo_extrai_primeiro_texto (s : Nat) (h2 : 200 ≤ s)
    (h3 : s < 300) (t : String) (cs ps : List Json) :
    gerar_conteudo_response (.response ⟨s, some (corpoSucesso t cs ps)⟩)
      = .ok (.str t) ∧
    gerar_conteudo_response (.response ⟨200, some (corpoSucesso "Cats rule." [] [])⟩)
      = .ok (.str "Cats rule.") := by
  constructor
  · have hnf : raise_for_status s = .ok () := by
      unfold raise_for_status
      rw [if_neg (by omega)]
    simp only [gerar_conteudo_response, hnf]
    rfl
  · rfl

/-- Witness for claim C2 at status 200 and the stubbed upstream body. -/
theorem gerar_conteudo_extrai_primeiro_texto_aplicado :
    gerar_conteudo_response
      (.response ⟨200, some (corpoSucesso "Cats rule." [] [])⟩)
      = .ok (.str "Cats rule.") :=
  (gerar_conteudo_extrai_primeiro_texto 200 (by omega) (by omega)
    "Cats rule." [] []).1

/-- Counterexample to claim C3 as stated: a 2xx response whose body has an
empty `candidates` list raises `IndexError`, which the catch-all handler
turns into the generic unexpected error, not the malformed-response
error. -/
theorem candidatos_vazios_sem_malformed :
    gerar_conteudo_response
      (.response ⟨200, some (Json.obj [("candidates", Json.arr [])])⟩)
      = .error .unexpectedError ∧
    ServiceError.unexpectedError ≠ ServiceError.malformedResponseError :=
  ⟨rfl, by decide⟩

/-- Claim C3 amended: on a 2xx response, a body missing any of the
expected dict keys — `candidates`, `content` (in the first candidate),
`parts` (in its content), or `text` (in the first part) — raises
`KeyError` and yields the malformed-response error, while an empty
`candidates` or `parts` list raises `IndexError` and yields the generic
unexpected error; and for every 2xx response whatsoever the outcome is
the extracted value or one of those two handled errors — never an
uncaught key- or index-lookup crash. -/
theorem resposta_malformada_dispatch (s : Nat) (h2 : 200 ≤ s) (h3 : s < 300) :
    (∀ fs : List (String × Json), fs.lookup "candidates" = none →
      gerar_conteudo_response (.response ⟨s, some (.obj fs)⟩)
        = .error .malformedResponseError) ∧
    (∀ fs : List (String × Json), fs.lookup "candidates" = some (Json.arr []) →
      gerar_conteudo_response (.response ⟨s, some (.obj fs)⟩)
        = .error .unexpectedError) ∧
    (∀ (fs c0fs : List (String × Json)) (cs : List Json),
      fs.lookup "candidates" = some (Json.arr (Json.obj c0fs :: cs)) →
      c0fs.lookup "content" = none →
      gerar_conteudo_response (.response ⟨s, some (.obj fs)⟩)
        = .error .malformedResponseError) ∧
    (∀ (fs c0fs ctfs : List (String × Json)) (cs : List Json),
      fs.lookup "candidates" = some (Json.arr (Json.obj c0fs :: cs)) →
      c0fs.lookup "content" = some (Json.obj ctfs) →
      ctfs.lookup "parts" = none →
      gerar_conteudo_response (.response ⟨s, some (.obj fs)⟩)
        = .error .malformedResponseError) ∧
    (∀ (fs c0fs ctfs : List (String × Json)) (cs : List Json),
      fs.lookup "candidates" = some (Json.arr (Json.obj c0fs :: cs)) →
      c0fs.lookup "content" = some (Json.obj ctfs) →
      ctfs.lookup "parts" = some (Json.arr []) →
      gerar_conteudo_response (.response ⟨s, some (.obj fs)⟩)
        = .error .unexpectedError) ∧
    (∀ (fs c0fs ctfs p0fs : List (String × Json)) (cs ps : List Json),
      fs.lookup "candidates" = some (Json.arr (Json.obj c0fs :: cs)) →
      c0fs.lookup "content" = some (Json.obj ctfs) →
      ctfs.lookup "parts" = some (Json.arr (Json.obj p0fs :: ps)) →
      p0fs.lookup "text" = none →
      gerar_conteudo_response (.response ⟨s, some (.obj fs)⟩)
        = .error .malformedResponseError) ∧
    (∀ ob : Option Json,
      (∃ v, gerar_conteudo_response (.response ⟨s, ob⟩) = .ok v) ∨
      gerar_conteudo_response (.response ⟨s, ob⟩)
        = .error .malformedResponseError ∨
      gerar_conteudo_response (.response ⟨s, ob⟩)
        = .error .unexpectedError) := by
  have hnf : raise_for_status s = .ok () := by
    unfold raise_for_status
    rw [if_neg (by omega)]
  refine ⟨?_, ?_, ?_, ?_, ?_, ?_, ?_⟩
  · intro fs hc
    have hext : extractText (Json.obj fs) = .error .keyError := by
      simp only [extractText, getKey, hc, except_bind_error]
    simp only [gerar_conteudo_response, hnf, hext]
  · intro fs hc
    have hext : extractText (Json.obj fs) = .error .indexError := by
      simp only [extractText, getKey, getIdx, hc, except_bind_ok,
        except_bind_error, List.get?_nil]
    simp only [gerar_conteudo_response, hnf, hext]
  · intro fs c0fs cs hc hct
    have hext : extractText (Json.obj fs) = .error .keyError := by
      simp only [extractText, getKey, getIdx, hc, hct, except_bind_ok,
        except_bind_error, List.get?_cons_zero]
    simp only [gerar_conteudo_response, hnf, hext]
  · intro fs c0fs ctfs cs hc hct hp
    have hext : extractText (Json.obj fs) = .error .keyError := by
      simp only [extractText, getKey, getIdx, hc, hct, hp, except_bind_ok,
        except_bind_error, List.get?_cons_zero]
    simp only [gerar_conteudo_response, hnf, hext]
  · intro fs c0fs ctfs cs hc hct hp
    have hext : extractText (Json.obj fs) = .error .indexError := by
      simp only [extractText, getKey, getIdx, hc, hct, hp, except_bind_ok,
        except_bind_error, List.get?_cons_zero, List.get?_nil]
    simp only [gerar_conteudo_response, hnf, hext]
  · intro fs c0fs ctfs p0fs cs ps hc hct hp htx
    have hext : extractText (Json.obj fs) = .error .keyError := by
      simp only [extractText, getKey, getIdx, hc, hct, hp, htx,
        except_bind_ok, except_bind_error, List.get?_cons_zero]
    simp only [gerar_conteudo_response, hnf, hext]
  · intro ob
    cases ob with
    | none =>
      exact Or.inr (Or.inr (by simp only [gerar_conteudo_response, hnf]))
    | some data =>
      cases hext : extractText data with
      | ok v =>
        exact Or.inl ⟨v, by simp only [gerar_conteudo_response, hnf, hext]⟩
      | error e =>
        cases e with
        | keyError =>
          exact Or.inr (Or.inl (by simp only [gerar_conteudo_response, hnf, hext]))
        | indexError =>
          exact Or.inr (Or.inr (by simp only [gerar_conteudo_response, hnf, hext]))
        | typeError =>
          exact Or.inr (Or.inr (by simp only [gerar_conteudo_response, hnf, hext]))
        | httpError c =>
          exact Or.inr (Or.inr (by simp only [gerar_conteudo_response, hnf, hext]))
        | jsonDecodeError =>
          exact Or.inr (Or.inr (by simp only [gerar_conteudo_response, hnf, hext]))

/-- Witness for amended claim C3 at status 200: bodies missing
`candidates`, `content`, `parts` or `text` give the malformed-response
error; bodies with an empty `candidates` or `parts` list give the generic
unexpected error. -/
theorem resposta_malformada_dispatch_aplicado :
    gerar_conteudo_response (.response ⟨200, some (.obj [])⟩)
      = .error .malformedResponseError ∧
    gerar_conteudo_response
      (.response ⟨200, some (.obj [("candidates", Json.arr [])])⟩)
      = .error .unexpectedError ∧
    gerar_conteudo_response
      (.response ⟨200, some (.obj [("candidates", Json.arr [Json.obj []])])⟩)
      = .error .malformedResponseError ∧
    gerar_conteudo_response
      (.response ⟨200, some (.obj
        [("candidates", Json.arr [Json.obj [("content", Json.obj [])]])])⟩)
      = .error .malformedResponseError ∧
    gerar_conteudo_response
      (.response ⟨200, some (.obj
        [("candidates",
          Json.arr [Json.obj [("content", Json.obj [("parts", Json.arr [])])]])])⟩)
      = .error .unexpectedError ∧
    gerar_conteudo_response
      (.response ⟨200, some (.obj
        [("candidates",
          Json.arr [Json.obj
            [("content", Json.obj [("parts", Json.arr [Json.obj []])])]])])⟩)
      = .error .malformedResponseError :=
  ⟨(resposta_malformada_dispatch 200 (by omega) (by omega)).1 [] rfl,
   (resposta_malformada_dispatch 200 (by omega) (by omega)).2.1
     [("candidates", Json.arr [])] rfl,
   (resposta_malformada_dispatch 200 (by omega) (by omega)).2.2.1
     [("candidates", Json.arr [Json.obj []])] [] [] rfl rfl,
   (resposta_malformada_dispatch 200 (by omega) (by omega)).2.2.2.1
     [("candidates", Json.arr [Json.obj [("content", Json.obj [])]])]
     [("content", Json.obj [])] [] [] rfl rfl rfl,
   (resposta_malformada_dispatch 200 (by omega) (by omega)).2.2.2.2.1
     [("candidates",
       Json.arr [Json.obj [("content", Json.obj [("parts", Json.arr [])])]])]
     [("content", Json.obj [("parts", Json.arr [])])]
     [("parts", Json.arr [])] [] rfl rfl rfl,
   (resposta_malformada_dispatch 200 (by omega) (by omega)).2.2.2.2.2.1
     [("candidates",
       Json.arr [Json.obj
         [("content", Json.obj [("parts", Json.arr [Json.obj []])])]])]
     [("content", Json.obj [("parts", Json.arr [Json.obj []])])]
     [("parts", Json.arr [Json.obj []])] [] [] [] rfl rfl rfl rfl⟩

/-- Counterexample to claim C4 as stated: status 304 is not 2xx, yet
`raise_for_status` only flags 4xx/5xx, so the code proceeds to body
parsing and ends in the generic unexpected error instead of an upstream
error carrying 304. -/
theorem status_304_sem_upstream :
    gerar_conteudo_response (.response ⟨304, none⟩) = .error .unexpectedError ∧
    ServiceError.unexpectedError ≠ ServiceError.upstreamError 304 :=
  ⟨rfl, by decide⟩

/-- Claim C4 amended: status 429 yields the rate-limit error, 401 the auth
error, and any other 4xx/5xx status the generic upstream error carrying
that status; the three outcomes are mutually distinguishable. Statuses
outside both 2xx and 4xx/5xx are not flagged by `raise_for_status`. -/
theorem http_erro_dispatch (s : Nat) (body : Option Json) :
    (s = 429 →
      gerar_conteudo_response (.response ⟨s, body⟩) = .error .rateLimitError) ∧
    (s = 401 →
      gerar_conteudo_response (.response ⟨s, body⟩) = .error .authError) ∧
    (400 ≤ s → s < 600 → s ≠ 429 → s ≠ 401 →
      gerar_conteudo_response (.response ⟨s, body⟩)
        = .error (.upstreamError s)) ∧
    (ServiceError.rateLimitError ≠ ServiceError.authError ∧
     (∀ c : Nat, ServiceError.rateLimitError ≠ ServiceError.upstreamError c) ∧
     (∀ c : Nat, ServiceError.authError ≠ ServiceError.upstreamError c)) := by
  refine ⟨?_, ?_, ?_, by decide, fun c => by simp, fun c => by simp⟩
  · intro hs
    subst hs
    rfl
  · intro hs
    subst hs
    rfl
  · intro h4 h6 h429 h401
    have hrs : raise_for_status s = .error (.httpError s) := by
      unfold raise_for_status
      rw [if_pos ⟨h4, h6⟩]
    simp only [gerar_conteudo_response, hrs, if_neg h429, if_neg h401]

/-- Witness for amended claim C4 at statuses 429, 401 and 500. -/
theorem http_erro_dispatch_aplicado :
    gerar_conteudo_response (.response ⟨429, none⟩) = .error .rateLimitError ∧
    gerar_conteudo_response (.response ⟨401, none⟩) = .error .authError ∧
    gerar_conteudo_response (.response ⟨500, none⟩)
      = .error (.upstreamError 500) :=
  ⟨(http_erro_dispatch 429 none).1 rfl,
   (http_erro_dispatch 401 none).2.1 rfl,
   (http_erro_dispatch 500 none).2.2.1 (by omega) (by omega) (by omega) (by omega)⟩

/-- Counterexample to claim C5 as stated: calling with `max_tokens = 0`
provides the argument, yet the truthiness test `if max_tokens:` drops the
field, so `maxOutputTokens` is absent from the generation config. -/
theorem max_tokens_zero_ausente :
    (generationConfigList (9 / 10) (some 0)).lookup "maxOutputTokens" = none ∧
    (some (0 : Int)).isSome = true :=
  ⟨rfl, rfl⟩

/-- Claim C5 amended: the generation config carries `maxOutputTokens` iff
the argument is provided with a nonzero value (Python truthiness treats
both `None` and `0` as absent), and when present it equals the provided
value. -/
theorem max_tokens_condicional (t : Rat) (n : Int) :
    (generationConfigList t none).lookup "maxOutputTokens" = none ∧
    (generationConfigList t (some 0)).lookup "maxOutputTokens" = none ∧
    (n ≠ 0 → (generationConfigList t (some n)).lookup "maxOutputTokens"
      = some (Json.num (Rat.ofInt n))) := by
  refine ⟨rfl, rfl, ?_⟩
  intro hn
  have ht : pyTruthyOptInt (some n) = true := by
    simp [pyTruthyOptInt, hn]
  simp [generationConfigList, ht, List.lookup]

/-- Witness for amended claim C5 with the provided value 7. -/
theorem max_tokens_condicional_aplicado :
    (generationConfigList (9 / 10) (some 7)).lookup "maxOutputTokens"
      = some (Json.num (Rat.ofInt 7)) :=
  (max_tokens_condicional (9 / 10) 7).2.2 (by omega)

/-- Counterexample to claim C6 as stated: the empty-string credential is
neither absent nor the placeholder, yet construction fails, because
`not self.api_key` is a truthiness test. -/
theorem chave_vazia_rejeitada :
    mkGeminiService (some "") = .error apiKeyErrorMsg ∧
    (some "" ≠ (none : Option String)) ∧ "" ≠ placeholderApiKey :=
  ⟨rfl, by simp, by decide⟩

/-- Claim C6 amended: construction fails iff the credential is absent,
empty, or equals the placeholder; on success the service object holds the
configured credential (plus the fixed base URL, model and timeout). The
check is part of construction itself, so it runs before any request. -/
theorem construtor_valida_chave (env : Option String) :
    ((∃ e, mkGeminiService env = .error e) ↔
      (env = none ∨ env = some "" ∨ env = some placeholderApiKey)) ∧
    (∀ k : String, env = some k → k ≠ "" → k ≠ placeholderApiKey →
      mkGeminiService env = .ok
        { api_key := k
          base_url := "https://generativelanguage.googleapis.com/v1beta/models"
          model := "gemini-2.5-flash"
          timeout := 30 }) := by
  cases env with
  | none =>
    constructor
    · constructor
      · intro _
        exact Or.inl rfl
      · intro _
        exact ⟨apiKeyErrorMsg, rfl⟩
    · intro k hk
      exact absurd hk (by simp)
  | some k =>
    constructor
    · constructor
      · intro ⟨e, he⟩
        by_cases hcond : k = "" ∨ k = placeholderApiKey
        · rcases hcond with h | h
          · exact Or.inr (Or.inl (by rw [h]))
          · exact Or.inr (Or.inr (by rw [h]))
        · exact absurd he (by simp [mkGeminiService, if_neg hcond])
      · intro hor
        rcases hor with h | h | h
        · exact absurd h (by simp)
        · refine ⟨apiKeyErrorMsg, ?_⟩
          have : k = "" := by injection h
          simp [mkGeminiService, this]
        · refine ⟨apiKeyErrorMsg, ?_⟩
          have : k = placeholderApiKey := by injection h
          simp [mkGeminiService, this]
    · intro k' hk hne hph
      have : k = k' := by injection hk
      subst this
      simp [mkGeminiService, hne, hph]

/-- Witness for amended claim C6: a concrete valid key constructs the
service holding it, and the absent key fails. -/
theorem construtor_valida_chave_aplicado :
    mkGeminiService (some "AIzaExemplo123") = .ok
      { api_key := "AIzaExemplo123"
        base_url := "https://generativelanguage.googleapis.com/v1beta/models"
        model := "gemini-2.5-flash"
        timeout := 30 } :=
  (construtor_valida_chave (some "AIzaExemplo123")).2 "AIzaExemplo123" rfl
    (by decide) (by decide)
